import Mathlib

/-!
Verification of the WebSocket protocol engine of `go-dai`
(`websocket/server.go`, `websocket/router.go`, `websocket/connManager.go`).

Byte streams are modelled as `List Nat` (each element a byte value `< 256`).
Go's bitwise operations on bytes are embedded arithmetically where the two
agree on all naturals: `b & 0x0f = b % 16`, `b & 0x7f = b % 128`,
`(b & 0x80) != 0 = (b / 128 % 2 = 1)` for byte values, `byte(x) = x % 256`,
`x >> k = x / 2^k`.  XOR stays `^^^`.
-/

namespace GoDai.WS

/-! ### Frame opcodes (`server.go`, `const` block) -/

def opCodeContinuation : Nat := 0x0
def opCodeText : Nat := 0x1
def opCodeBinary : Nat := 0x2
def opCodeClose : Nat := 0x8
def opCodePing : Nat := 0x9
def opCodePong : Nat := 0xA

/-! ### Byte-stream primitives

`readN n s` models `io.ReadFull(c.conn, buf[:n])`: it returns exactly `n`
bytes and the remaining stream, or `none` on a short read (which `readFrame`
turns into a hard error). -/

def readN : Nat → List Nat → Option (List Nat × List Nat)
  | 0, s => some ([], s)
  | _ + 1, [] => none
  | n + 1, b :: s =>
    match readN n s with
    | none => none
    | some (bs, r) => some (b :: bs, r)

/-- Big-endian accumulation `payloadLen = payloadLen<<8 | uint64(b)`
(for byte values `b < 256`, `x<<8 | b = x*256 + b`). -/
def beAcc (bs : List Nat) : Nat :=
  bs.foldl (fun acc b => acc * 256 + b) 0

/-! ### `Conn.writeFrame` (server.go) -/

/-- Embedding of `Conn.writeFrame(fin, opCode, payload)`: the exact byte
sequence written to the connection (header, extended length, raw payload).
The server never masks: the second byte carries only the length bits. -/
def writeFrame (fin : Bool) (opCode : Nat) (payload : List Nat) : List Nat :=
  let firstByte := if fin then opCode ||| 0x80 else opCode
  let payloadLen := payload.length
  let secondByte :=
    if payloadLen < 126 then payloadLen
    else if payloadLen < 65536 then 126
    else 127
  let extLen : List Nat :=
    if payloadLen ≥ 65536 then
      [payloadLen / 2 ^ 56 % 256, payloadLen / 2 ^ 48 % 256,
       payloadLen / 2 ^ 40 % 256, payloadLen / 2 ^ 32 % 256,
       payloadLen / 2 ^ 24 % 256, payloadLen / 2 ^ 16 % 256,
       payloadLen / 2 ^ 8 % 256, payloadLen % 256]
    else if payloadLen ≥ 126 then
      [payloadLen / 2 ^ 8 % 256, payloadLen % 256]
    else []
  firstByte :: secondByte :: extLen ++ payload

/-! ### `Conn.readFrame` (server.go) -/

/-- Result of decoding one frame: either `(fin, opCode, payload)` together
with the unconsumed remainder of the stream, or an error message. -/
inductive FrameResult where
  | ok (fin : Bool) (opCode : Nat) (payload : List Nat) (rest : List Nat)
  | err (msg : String)
  deriving DecidableEq, Repr

/-- Embedding of `Conn.readFrame`: decodes one frame from the head of the
stream.  Mirrors the source's order of operations: header byte, mask/length
byte, extended length, the `payloadLen > maxMsgSize` check, mask key,
payload, unmasking. -/
def readFrame (maxMsgSize : Nat) (s : List Nat) : FrameResult :=
  match s with
  | [] => .err "EOF"
  | b0 :: s1 =>
    let fin : Bool := decide (b0 / 128 % 2 = 1)
    let opCode : Nat := b0 % 16
    match s1 with
    | [] => .err "EOF"
    | b1 :: s2 =>
      let masked : Bool := decide (b1 / 128 % 2 = 1)
      let len7 : Nat := b1 % 128
      let lenRest : Option (Nat × List Nat) :=
        if len7 = 126 then
          match readN 2 s2 with
          | none => none
          | some (bs, r) => some (beAcc bs, r)
        else if len7 = 127 then
          match readN 8 s2 with
          | none => none
          | some (bs, r) => some (beAcc bs, r)
        else some (len7, s2)
      match lenRest with
      | none => .err "EOF"
      | some (payloadLen, s3) =>
        if payloadLen > maxMsgSize then .err "payload too large"
        else
          match (if masked then readN 4 s3 else some ([], s3)) with
          | none => .err "EOF"
          | some (mask, s4) =>
            match readN payloadLen s4 with
            | none => .err "EOF"
            | some (payload, s5) =>
              let payload' :=
                if masked then
                  payload.enum.map (fun ib => ib.2 ^^^ mask.getD (ib.1 % 4) 0)
                else payload
              .ok fin opCode payload' s5

/-! ### Strings as byte lists -/

/-- UTF-8 bytes of a string; all strings the engine writes here are ASCII,
where the code points are the bytes. -/
def strBytes (s : String) : List Nat := s.data.map Char.toNat

/-! ### `Conn.WriteCloseMessage` (server.go) -/

/-- The payload built by `Conn.WriteCloseMessage`: `payload[0] = byte(code>>8)`,
`payload[1] = byte(code & 0xff)`, then the raw reason bytes. -/
def closeMessagePayload (code : Nat) (reason : List Nat) : List Nat :=
  (code / 256 % 256) :: (code % 256) :: reason

/-- Bytes emitted by `Conn.WriteCloseMessage(code, reason)`:
a single frame with `fin=true`, `opCode=opCodeClose`. -/
def WriteCloseMessage (code : Nat) (reason : List Nat) : List Nat :=
  writeFrame true opCodeClose (closeMessagePayload code reason)

/-! ### `Conn.ReadMessage` (server.go), at the frame level -/

/-- A decoded frame, the unit `Conn.ReadMessage` consumes from `readFrame`. -/
structure Frame where
  fin : Bool
  opCode : Nat
  payload : List Nat
  deriving DecidableEq, Repr

/-- Outcome of `Conn.ReadMessage` on a sequence of decoded frames:
the assembled message (with the frames it wrote back inline and the frames
left unconsumed), or an error (with the frames written back inline). -/
inductive ReadResult where
  | ok (message : List Nat) (written : List Frame) (restFrames : List Frame)
  | err (msg : String) (written : List Frame)
  deriving DecidableEq, Repr

/-- Embedding of the `for` loop of `Conn.ReadMessage`, consuming decoded
frames: `close` errors out, `ping` is answered inline with a `pong` carrying
the same payload, `pong` is consumed silently; any other frame is data —
before appending, `len(message)+len(payload) > maxMsgSize` sends
`WriteCloseMessage(1009, "message size exceeds limit")` and errors;
a `fin` data frame returns the assembled message.  An exhausted stream
models `readFrame` failing with a read error. -/
def readMessageLoop (maxMsgSize : Nat) (message : List Nat) : List Frame → ReadResult
  | [] => .err "EOF" []
  | f :: fs =>
    if f.opCode = opCodeClose then .err "client closed connection" []
    else if f.opCode = opCodePing then
      match readMessageLoop maxMsgSize message fs with
      | .ok m w r => .ok m (⟨true, opCodePong, f.payload⟩ :: w) r
      | .err e w => .err e (⟨true, opCodePong, f.payload⟩ :: w)
    else if f.opCode = opCodePong then readMessageLoop maxMsgSize message fs
    else if message.length + f.payload.length > maxMsgSize then
      .err "message size exceeds limit"
        [⟨true, opCodeClose, closeMessagePayload 1009 (strBytes "message size exceeds limit")⟩]
    else if f.fin then .ok (message ++ f.payload) [] fs
    else readMessageLoop maxMsgSize (message ++ f.payload) fs

/-! ### SHA-1 (`crypto/sha1`) and Base64 (`encoding/base64`),
as consumed by `generateServerKey` -/

/-- 32-bit left rotation on words `< 2^32`. -/
def rotl32 (n x : Nat) : Nat := (x * 2 ^ n + x / 2 ^ (32 - n)) % 2 ^ 32

/-- SHA-1 round function. -/
def sha1F (t b c d : Nat) : Nat :=
  if t < 20 then (b &&& c) ||| ((0xFFFFFFFF ^^^ b) &&& d)
  else if t < 40 then b ^^^ c ^^^ d
  else if t < 60 then (b &&& c) ||| (b &&& d) ||| (c &&& d)
  else b ^^^ c ^^^ d

/-- SHA-1 round constants. -/
def sha1K (t : Nat) : Nat :=
  if t < 20 then 0x5A827999
  else if t < 40 then 0x6ED9EBA1
  else if t < 60 then 0x8F1BBCDC
  else 0xCA62C1D6

/-- 16 big-endian 32-bit words of a 64-byte block. -/
def words16 : List Nat → List Nat
  | a :: b :: c :: d :: r => (a * 2 ^ 24 + b * 2 ^ 16 + c * 2 ^ 8 + d) :: words16 r
  | _ => []

/-- Extend the 16-word schedule to 80 words:
`w[t] = rotl1 (w[t-3] xor w[t-8] xor w[t-14] xor w[t-16])`. -/
def extendW (w : List Nat) : Nat → List Nat
  | 0 => w
  | n + 1 =>
    extendW (w ++ [rotl32 1 (w.getD (w.length - 3) 0 ^^^ w.getD (w.length - 8) 0
      ^^^ w.getD (w.length - 14) 0 ^^^ w.getD (w.length - 16) 0)]) n

/-- One SHA-1 block compression. -/
def sha1Compress (hs : Nat × Nat × Nat × Nat × Nat) (block : List Nat) :
    Nat × Nat × Nat × Nat × Nat :=
  let w := extendW (words16 block) 64
  let (h0, h1, h2, h3, h4) := hs
  let st := w.enum.foldl
    (fun st tw =>
      let (a, b, c, d, e) := st
      let temp := (rotl32 5 a + sha1F tw.1 b c d + e + sha1K tw.1 + tw.2) % 2 ^ 32
      (temp, a, rotl32 30 b, c, d))
    (h0, h1, h2, h3, h4)
  ((h0 + st.1) % 2 ^ 32, (h1 + st.2.1) % 2 ^ 32, (h2 + st.2.2.1) % 2 ^ 32,
   (h3 + st.2.2.2.1) % 2 ^ 32, (h4 + st.2.2.2.2) % 2 ^ 32)

/-- Big-endian bytes of a 32-bit word. -/
def wordBytes (h : Nat) : List Nat :=
  [h / 2 ^ 24 % 256, h / 2 ^ 16 % 256, h / 2 ^ 8 % 256, h % 256]

/-- Split a padded message into its 64-byte blocks (`k` blocks). -/
def blocksGo : Nat → List Nat → List (List Nat)
  | 0, _ => []
  | k + 1, l => l.take 64 :: blocksGo k (l.drop 64)

/-- SHA-1 of a byte sequence (the 20 digest bytes). -/
def sha1 (msg : List Nat) : List Nat :=
  let z := (119 - msg.length % 64) % 64
  let bitLen := msg.length * 8
  let lenBytes := [bitLen / 2 ^ 56 % 256, bitLen / 2 ^ 48 % 256, bitLen / 2 ^ 40 % 256,
    bitLen / 2 ^ 32 % 256, bitLen / 2 ^ 24 % 256, bitLen / 2 ^ 16 % 256,
    bitLen / 2 ^ 8 % 256, bitLen % 256]
  let padded := msg ++ 0x80 :: (List.replicate z 0 ++ lenBytes)
  let hs := (blocksGo (padded.length / 64) padded).foldl sha1Compress
    (0x67452301, 0xEFCDAB89, 0x98BADCFE, 0x10325476, 0xC3D2E1F0)
  wordBytes hs.1 ++ wordBytes hs.2.1 ++ wordBytes hs.2.2.1
    ++ wordBytes hs.2.2.2.1 ++ wordBytes hs.2.2.2.2

/-- The standard Base64 alphabet. -/
def base64Chars : String :=
  "ABCDEFGHIJKLMNOPQRSTUVWXYZabcdefghijklmnopqrstuvwxyz0123456789+/"

def b64char (n : Nat) : Char := base64Chars.data.getD n 'A'

/-- `base64.StdEncoding.EncodeToString`: 3-byte groups to 4 characters,
`=`-padded. -/
def base64Encode : List Nat → List Char
  | [] => []
  | [a] => [b64char (a / 4), b64char (a % 4 * 16), '=', '=']
  | [a, b] => [b64char (a / 4), b64char (a % 4 * 16 + b / 16), b64char (b % 16 * 4), '=']
  | a :: b :: c :: r =>
    b64char (a / 4) :: b64char (a % 4 * 16 + b / 16) :: b64char (b % 16 * 4 + c / 64)
      :: b64char (c % 64) :: base64Encode r

/-- The RFC6455 GUID appended to the client key. -/
def wsGUID : String := "258EAFA5-E914-47DA-95CA-C5AB0DC85B11"

/-- Embedding of `generateServerKey` (server.go):
`base64(sha1(clientKey + GUID))`. -/
def generateServerKey (clientKey : String) : String :=
  String.mk (base64Encode (sha1 (strBytes (clientKey ++ wsGUID))))

/-! ### `Server.upgrade` (server.go) -/

/-- The handshake request headers `upgrade` reads (`r.Header.Get` yields `""`
for an absent header). -/
structure HandshakeRequest where
  upgrade : String
  connection : String
  secWebSocketVersion : String
  origin : String
  secWebSocketKey : String
  deriving DecidableEq, Repr

/-- Embedding of the validation sequence of `Server.upgrade`: `some msg` is
the specific error aborting the handshake; `none` means every check passed
(only then does the source hijack the connection and write the 101
response). -/
def upgradeValidate (cfgOrigin : String) (r : HandshakeRequest) : Option String :=
  if r.upgrade ≠ "websocket" then
    some "invalid upgrade header (expected 'websocket')"
  else if r.connection ≠ "Upgrade" ∧ r.connection ≠ "upgrade" then
    some "invalid connection header (expected 'Upgrade')"
  else if r.secWebSocketVersion ≠ "13" then
    some "unsupported websocket version (only RFC 6455/13 is supported)"
  else if cfgOrigin ≠ "*" ∧ r.origin ≠ "" ∧ r.origin ≠ cfgOrigin then
    some ("origin '" ++ r.origin ++ "' not allowed")
  else if r.secWebSocketKey = "" then
    some "missing 'Sec-WebSocket-Key' header"
  else none

/-- ASCII case folding of a code point (A–Z mapped to a–z). -/
def lowerByte (n : Nat) : Nat := if 65 ≤ n ∧ n ≤ 90 then n + 32 else n

/-- ASCII case-insensitive string equality. -/
def eqCaseInsensitive (a b : String) : Prop :=
  (strBytes a).map lowerByte = (strBytes b).map lowerByte

instance (a b : String) : Decidable (eqCaseInsensitive a b) := by
  unfold eqCaseInsensitive; infer_instance

/-- The validation sequence as the claim words it (for comparison with
`upgradeValidate`): `Connection` compared case-insensitively against
`"Upgrade"`, and the `Origin` check applied whenever the configured origin
is not the wildcard. -/
def upgradeValidateClaim (cfgOrigin : String) (r : HandshakeRequest) : Option String :=
  if r.upgrade ≠ "websocket" then
    some "invalid upgrade header (expected 'websocket')"
  else if ¬ eqCaseInsensitive r.connection "Upgrade" then
    some "invalid connection header (expected 'Upgrade')"
  else if r.secWebSocketVersion ≠ "13" then
    some "unsupported websocket version (only RFC 6455/13 is supported)"
  else if cfgOrigin ≠ "*" ∧ r.origin ≠ cfgOrigin then
    some ("origin '" ++ r.origin ++ "' not allowed")
  else if r.secWebSocketKey = "" then
    some "missing 'Sec-WebSocket-Key' header"
  else none

/-- Outcome of `Server.upgrade`: `rejected` returns the error before any
hijack or 101 response; `upgraded` records the accept key written in the
101 response after hijacking. -/
inductive UpgradeOutcome where
  | rejected (msg : String)
  | upgraded (acceptKey : String)
  deriving DecidableEq, Repr

/-- `Server.upgrade`: validation first; the hijack and the raw
`101 Switching Protocols` response (with `Sec-WebSocket-Accept:
generateServerKey key`) happen only when validation passed. -/
def upgrade (cfgOrigin : String) (r : HandshakeRequest) : UpgradeOutcome :=
  match upgradeValidate cfgOrigin r with
  | some e => .rejected e
  | none => .upgraded (generateServerKey r.secWebSocketKey)

/-! ### `Router.ParseMessage` and the message loop (router.go, server.go) -/

/-- Abstract result of `json.Unmarshal(rawMsg, &WsReq)` on a raw text
message: `none` models malformed JSON (Unmarshal returns an error);
`some fields` a valid JSON object, each field `none` when absent (Go then
leaves the zero value) and `some v` when present. -/
structure WsReqJson where
  action : Option String
  requestId : Option String
  data : Option (List Nat)
  deriving DecidableEq, Repr

/-- Embedding of `Router.ParseMessage`: it fails exactly when
`json.Unmarshal` fails; absent fields come back as Go zero values
(`""` / nil), with no `action`-presence check. -/
def ParseMessage (raw : Option WsReqJson) : Option (String × String × List Nat) :=
  match raw with
  | none => none
  | some req => some (req.action.getD "", req.requestId.getD "", req.data.getD [])

/-- What one iteration of `Server.messageLoop` does after `ReadMessage`. -/
inductive LoopStep where
  | brk (closeReason : String)
  | parseErrorResponse (response : String)
  | dispatched
  | unknownActionResponse
  deriving DecidableEq, Repr

/-- The literal response `messageLoop` writes on a `ParseMessage` error. -/
def badMessageResponse : String :=
  "\x7b\"code\":400,\"msg\":\"消息格式错误\",\"data\":null\x7d"

/-- One iteration of `Server.messageLoop`: a `ReadMessage` error (`none`)
breaks the loop; a `ParseMessage` error writes `badMessageResponse` and
continues; otherwise `Router.Dispatch` runs the registered handler, or — for
an unregistered action — writes the `404 无效的接口` JSON via `ctx.JSON` and
continues (the dispatch error is only logged). -/
def messageLoopStep (handlers : List String) (readResult : Option (Option WsReqJson)) :
    LoopStep :=
  match readResult with
  | none => .brk "read error"
  | some raw =>
    match ParseMessage raw with
    | none => .parseErrorResponse badMessageResponse
    | some (action, _, _) =>
      if action ∈ handlers then .dispatched else .unknownActionResponse

/-! ### `ConnManager` (connManager.go) -/

/-- Model of `ConnInfo`: the wrapped `*Conn` is an abstract handle. -/
structure ConnInfoM where
  conn : Nat
  connID : String
  clientIP : String
  deriving DecidableEq, Repr

def EventConnOnline : String := "websocket.conn.online"
def EventConnOffline : String := "websocket.conn.offline"

/-- Model of a published `ConnEvent`. -/
structure ConnEventM where
  eventType : String
  connID : String
  closeReason : String
  deriving DecidableEq, Repr

/-- Model of the `ConnManager`: its `sync.Map` as an association list with
unique keys (newest first), plus the trace of published events and of the
`Conn.Close()` calls `RemoveConn` makes. -/
structure ConnManagerState where
  connMap : List (String × ConnInfoM)
  events : List ConnEventM
  closedConns : List Nat
  deriving DecidableEq, Repr

/-- `AddConn(conn, clientIP)`: stores a fresh record under `connID` (the
`uuid.NewString()` result is the `connID` argument), publishes an online
event, and returns the record. -/
def AddConn (s : ConnManagerState) (connID : String) (conn : Nat) (clientIP : String) :
    ConnManagerState × ConnInfoM :=
  let info : ConnInfoM := ⟨conn, connID, clientIP⟩
  ({ connMap := (connID, info) :: s.connMap.filter (fun p => p.1 != connID),
     events := s.events ++ [⟨EventConnOnline, connID, ""⟩],
     closedConns := s.closedConns }, info)

/-- `RemoveConn(connID, closeReason)`: `LoadAndDelete`; when the ID is
absent it returns at once — no offline event, no close.  Otherwise it
deletes the record, publishes the offline event with the reason, and closes
the stored connection. -/
def RemoveConn (s : ConnManagerState) (connID : String) (closeReason : String) :
    ConnManagerState :=
  match s.connMap.lookup connID with
  | none => s
  | some info =>
    { connMap := s.connMap.filter (fun p => p.1 != connID),
      events := s.events ++ [⟨EventConnOffline, connID, closeReason⟩],
      closedConns := s.closedConns ++ [info.conn] }

/-- `GetConnByConnID`: `Load` on the map, returning the stored `*Conn`
(`none` models the `(nil, false)` return). -/
def GetConnByConnID (s : ConnManagerState) (connID : String) : Option Nat :=
  (s.connMap.lookup connID).map (·.conn)

/-- Registry operations other goroutines may interleave between the calls a
claim talks about. -/
inductive RegOp where
  | add (connID : String) (conn : Nat) (clientIP : String)
  | remove (connID : String) (reason : String)
  deriving DecidableEq, Repr

def regOpID : RegOp → String
  | .add id _ _ => id
  | .remove id _ => id

def applyOp (s : ConnManagerState) : RegOp → ConnManagerState
  | .add id c ip => (AddConn s id c ip).1
  | .remove id reason => RemoveConn s id reason

def applyOps (s : ConnManagerState) (ops : List RegOp) : ConnManagerState :=
  ops.foldl applyOp s

/-! ### `Conn.Close` (server.go) -/

/-- One connection's transport for the close path: whether the underlying
`io.ReadWriteCloser` is still open, and all bytes written so far. -/
structure ConnState where
  transportOpen : Bool
  out : List Nat
  deriving DecidableEq, Repr

/-- A write on the underlying transport: appends when open; fails (second
component `true`) once the transport is closed. -/
def connWrite (c : ConnState) (bs : List Nat) : ConnState × Bool :=
  if c.transportOpen then ({ c with out := c.out ++ bs }, false) else (c, true)

/-- `Conn.WriteCloseMessage` against the transport. -/
def connWriteCloseMessage (c : ConnState) (code : Nat) (reason : List Nat) :
    ConnState × Bool :=
  connWrite c (WriteCloseMessage code reason)

/-- Embedding of `Conn.Close()`: `_ = c.WriteCloseMessage(1000, "normal
closure")` — unconditional, its error discarded — then `c.conn.Close()`,
whose result (an error when the transport was already closed) is returned. -/
def Close (c : ConnState) : ConnState × Bool :=
  let c1 := (connWriteCloseMessage c 1000 (strBytes "normal closure")).1
  ({ c1 with transportOpen := false }, !c1.transportOpen)

/-! ### Basic codec lemmas -/

theorem readN_append (xs r : List Nat) : readN xs.length (xs ++ r) = some (xs, r) := by
  induction xs with
  | nil => rfl
  | cons b bs ih => simp [readN, ih]

theorem beAcc_two (len : Nat) (h : len < 65536) :
    beAcc [len / 256 % 256, len % 256] = len := by
  simp only [beAcc, List.foldl]
  omega

theorem beAcc_eight (len : Nat) (h : len < 2 ^ 64) :
    beAcc [len / 72057594037927936 % 256, len / 281474976710656 % 256,
           len / 1099511627776 % 256, len / 4294967296 % 256,
           len / 16777216 % 256, len / 65536 % 256,
           len / 256 % 256, len % 256] = len := by
  simp only [beAcc, List.foldl]
  omega

theorem lor_128 : ∀ o < 128, o ||| 128 = 128 + o := by decide

theorem readN_two (a b : Nat) (r : List Nat) : readN 2 (a :: b :: r) = some ([a, b], r) := rfl

theorem readN_eight (a b c d e f g h : Nat) (r : List Nat) :
    readN 8 (a :: b :: c :: d :: e :: f :: g :: h :: r)
      = some ([a, b, c, d, e, f, g, h], r) := rfl

theorem firstByte_fin (fin : Bool) (opc : Nat) (h : opc < 16) :
    decide ((if fin then opc ||| 0x80 else opc) / 128 % 2 = 1) = fin := by
  cases fin
  · simp only [if_neg Bool.false_ne_true, decide_eq_false_iff_not]
    omega
  · rw [if_pos rfl, lor_128 opc (by omega)]
    simp only [decide_eq_true_iff]
    omega

theorem firstByte_opc (fin : Bool) (opc : Nat) (h : opc < 16) :
    (if fin then opc ||| 0x80 else opc) % 16 = opc := by
  cases fin
  · rw [if_neg Bool.false_ne_true]; omega
  · rw [if_pos rfl, lor_128 opc (by omega)]; omega

/-- Round-trip: decoding the bytes produced by `writeFrame` yields the
original `fin`, `opCode` and `payload` and leaves the following bytes
untouched, whenever the opcode fits in 4 bits and the payload is within the
configured limit. -/
theorem readFrame_writeFrame (maxMsg : Nat) (fin : Bool) (opc : Nat) (hop : opc < 16)
    (payload : List Nat) (hlen : payload.length ≤ maxMsg)
    (hbig : payload.length < 2 ^ 64) (rest : List Nat) :
    readFrame maxMsg (writeFrame fin opc payload ++ rest) = .ok fin opc payload rest := by
  have hfb1 := firstByte_fin fin opc hop
  have hfb2 := firstByte_opc fin opc hop
  by_cases h1 : payload.length < 126
  · have hw : writeFrame fin opc payload ++ rest
        = (if fin then opc ||| 0x80 else opc) :: payload.length :: (payload ++ rest) := by
      simp only [writeFrame]
      rw [if_pos h1, if_neg (show ¬ payload.length ≥ 65536 by omega),
        if_neg (show ¬ payload.length ≥ 126 by omega)]
      simp
    have hmask : (decide (payload.length / 128 % 2 = 1)) = false := by
      rw [decide_eq_false_iff_not]; omega
    have hm7 : payload.length % 128 = payload.length := by omega
    rw [hw]
    simp only [readFrame, hfb1, hfb2, hmask, hm7]
    rw [if_neg (show ¬ payload.length = 126 by omega),
      if_neg (show ¬ payload.length = 127 by omega)]
    simp only [Bool.false_eq_true, if_false,
      if_neg (show ¬ payload.length > maxMsg by omega), readN_append]
  · by_cases h2 : payload.length < 65536
    · have hw : writeFrame fin opc payload ++ rest
          = (if fin then opc ||| 0x80 else opc) :: 126 ::
              payload.length / 2 ^ 8 % 256 :: payload.length % 256 :: (payload ++ rest) := by
        simp only [writeFrame]
        rw [if_neg h1, if_pos h2, if_neg (show ¬ payload.length ≥ 65536 by omega),
          if_pos (show payload.length ≥ 126 by omega)]
        simp
      rw [hw]
      simp only [readFrame, hfb1, hfb2]
      norm_num [readN_two]
      rw [beAcc_two payload.length h2]
      simp only [Bool.false_eq_true, if_false,
        if_neg (show ¬ payload.length > maxMsg by omega), readN_append]
    · have hw : writeFrame fin opc payload ++ rest
          = (if fin then opc ||| 0x80 else opc) :: 127 ::
              payload.length / 2 ^ 56 % 256 :: payload.length / 2 ^ 48 % 256 ::
              payload.length / 2 ^ 40 % 256 :: payload.length / 2 ^ 32 % 256 ::
              payload.length / 2 ^ 24 % 256 :: payload.length / 2 ^ 16 % 256 ::
              payload.length / 2 ^ 8 % 256 :: payload.length % 256 :: (payload ++ rest) := by
        simp only [writeFrame]
        rw [if_neg h1, if_neg h2, if_pos (show payload.length ≥ 65536 by omega)]
        simp
      rw [hw]
      simp only [readFrame, hfb1, hfb2]
      norm_num [readN_eight]
      rw [beAcc_eight payload.length hbig]
      simp only [Bool.false_eq_true, if_false,
        if_neg (show ¬ payload.length > maxMsg by omega), readN_append]

theorem writeFrame_secondByte_lt (fin : Bool) (opc : Nat) (payload : List Nat) :
    (writeFrame fin opc payload).getD 1 0 < 128 := by
  simp only [writeFrame, List.cons_append, List.nil_append, List.getD_cons_succ,
    List.getD_cons_zero]
  split_ifs <;> omega

/-- C1: for every frame with `fin` in \x7btrue, false\x7d, opcode among
continuation/text/binary/close/ping/pong, and payload length at most the
configured maximum message size (an `int64`, hence `< 2^63`), decoding the
byte sequence produced by `writeFrame` yields back the same `fin`, opcode
and payload (and consumes exactly the emitted frame); and the mask bit —
bit 7 of the second header byte — is always 0. -/
theorem frame_roundtrip_and_never_masked (fin : Bool) (opc : Nat)
    (hop : opc = opCodeContinuation ∨ opc = opCodeText ∨ opc = opCodeBinary ∨
      opc = opCodeClose ∨ opc = opCodePing ∨ opc = opCodePong)
    (payload : List Nat) (maxMsg : Nat) (hmax : maxMsg < 2 ^ 63)
    (hlen : payload.length ≤ maxMsg) :
    readFrame maxMsg (writeFrame fin opc payload) = .ok fin opc payload [] ∧
    (writeFrame fin opc payload).getD 1 0 / 128 % 2 = 0 := by
  have hop16 : opc < 16 := by
    rcases hop with rfl | rfl | rfl | rfl | rfl | rfl <;> decide
  constructor
  · have h := readFrame_writeFrame maxMsg fin opc hop16 payload hlen
      (by have := hlen; omega) []
    simpa using h
  · have := writeFrame_secondByte_lt fin opc payload
    omega

theorem frame_roundtrip_witness :
    readFrame 1024 (writeFrame true opCodeText [104, 105, 33])
      = .ok true opCodeText [104, 105, 33] [] ∧
    (writeFrame true opCodeText [104, 105, 33]).getD 1 0 / 128 % 2 = 0 :=
  frame_roundtrip_and_never_masked true opCodeText (Or.inr (Or.inl rfl))
    [104, 105, 33] 1024 (by norm_num) (by norm_num)

/-- C5: whenever the declared payload length (after the 1/2/8-byte length
decoding) exceeds the configured maximum message size, `readFrame` errors
immediately.  The remaining stream `s` is universally quantified — the
error does not depend on any payload (or mask) byte being present, so no
payload is read or allocated. -/
theorem readFrame_declared_length_over_limit (maxMsg : Nat) :
    (∀ b0 b1 s, b1 % 128 ≤ 125 → b1 % 128 > maxMsg →
      readFrame maxMsg (b0 :: b1 :: s) = .err "payload too large") ∧
    (∀ b0 b1 x y s, b1 % 128 = 126 → beAcc [x, y] > maxMsg →
      readFrame maxMsg (b0 :: b1 :: x :: y :: s) = .err "payload too large") ∧
    (∀ b0 b1 x1 x2 x3 x4 x5 x6 x7 x8 s, b1 % 128 = 127 →
      beAcc [x1, x2, x3, x4, x5, x6, x7, x8] > maxMsg →
      readFrame maxMsg (b0 :: b1 :: x1 :: x2 :: x3 :: x4 :: x5 :: x6 :: x7 :: x8 :: s)
        = .err "payload too large") := by
  refine ⟨fun b0 b1 s h1 h2 => ?_, fun b0 b1 x y s h1 h2 => ?_,
    fun b0 b1 x1 x2 x3 x4 x5 x6 x7 x8 s h1 h2 => ?_⟩
  · simp only [readFrame]
    rw [if_neg (show ¬ b1 % 128 = 126 by omega), if_neg (show ¬ b1 % 128 = 127 by omega)]
    simp [h2]
  · simp only [readFrame]
    rw [if_pos h1, readN_two]
    simp [h2]
  · simp only [readFrame]
    rw [if_neg (show ¬ b1 % 128 = 126 by omega), if_pos h1, readN_eight]
    simp [h2]

theorem readFrame_over_limit_witness :
    readFrame 5 [129, 10] = .err "payload too large" :=
  (readFrame_declared_length_over_limit 5).1 129 10 [] (by norm_num) (by norm_num)

/-- C10: for every status code `< 65536` and reason bytes `s` (length
bounded by Go's `int`), `WriteCloseMessage` emits exactly one frame with
`fin = true` and the close opcode, whose payload is exactly `2 + len(s)`
bytes: the status code big-endian in the first two bytes, then the raw
reason bytes.  Decoding the emitted bytes consumes them entirely
(`rest = []`), so exactly one frame is written. -/
theorem writeCloseMessage_single_close_frame (code : Nat) (hc : code < 65536)
    (reason : List Nat) (hr : reason.length < 2 ^ 63) :
    WriteCloseMessage code reason
      = writeFrame true opCodeClose (code / 256 :: code % 256 :: reason) ∧
    (closeMessagePayload code reason).length = 2 + reason.length ∧
    readFrame (2 + reason.length) (WriteCloseMessage code reason)
      = .ok true opCodeClose (code / 256 :: code % 256 :: reason) [] := by
  have hdiv : code / 256 % 256 = code / 256 := by omega
  refine ⟨by simp [WriteCloseMessage, closeMessagePayload, hdiv],
    by simp [closeMessagePayload]; omega, ?_⟩
  have h := readFrame_writeFrame (2 + reason.length) true opCodeClose (by decide)
    (closeMessagePayload code reason) (by simp [closeMessagePayload]; omega)
    (by simp [closeMessagePayload]; omega) []
  rw [List.append_nil] at h
  simpa [WriteCloseMessage, closeMessagePayload, hdiv] using h

/-- C2: `ReadMessage` enforces the maximum message size incrementally: as
soon as the accumulated message length plus the payload length of the data
frame just read exceeds the limit, it sends `WriteCloseMessage(1009,
"message size exceeds limit")` and returns that error — whatever frames are
still pending and whether or not the offending frame is final; a data frame
within the limit is accumulated and the loop continues. -/
theorem readMessage_size_limit_incremental (maxMsg : Nat) (message : List Nat)
    (f : Frame) (fs : List Frame) (hc : f.opCode ≠ opCodeClose)
    (hp : f.opCode ≠ opCodePing) (hq : f.opCode ≠ opCodePong) :
    (message.length + f.payload.length > maxMsg →
      readMessageLoop maxMsg message (f :: fs)
        = .err "message size exceeds limit"
            [⟨true, opCodeClose,
              closeMessagePayload 1009 (strBytes "message size exceeds limit")⟩]) ∧
    (message.length + f.payload.length ≤ maxMsg → f.fin = false →
      readMessageLoop maxMsg message (f :: fs)
        = readMessageLoop maxMsg (message ++ f.payload) fs) := by
  constructor
  · intro hover
    simp only [readMessageLoop, if_neg hc, if_neg hp, if_neg hq, if_pos hover]
  · intro hle hfin
    simp only [readMessageLoop, if_neg hc, if_neg hp, if_neg hq,
      if_neg (show ¬ message.length + f.payload.length > maxMsg by omega), hfin]
    simp

theorem readMessage_size_limit_witness :
    readMessageLoop 3 [] (⟨false, opCodeText, [1, 2, 3, 4]⟩ :: [])
      = .err "message size exceeds limit"
          [⟨true, opCodeClose,
            closeMessagePayload 1009 (strBytes "message size exceeds limit")⟩] :=
  (readMessage_size_limit_incremental 3 [] ⟨false, opCodeText, [1, 2, 3, 4]⟩ []
    (by decide) (by decide) (by decide)).1 (by decide)

/-- C6: a ping frame met while `ReadMessage` assembles a message is answered
inline by exactly one pong frame carrying the identical payload — prepended
to whatever else the loop writes — and contributes nothing to the message
the loop returns; a pong frame is consumed silently, leaving the loop's
result untouched. -/
theorem readMessage_ping_pong_inline (maxMsg : Nat) (message : List Nat)
    (fin : Bool) (p : List Nat) (fs : List Frame) :
    readMessageLoop maxMsg message (⟨fin, opCodePing, p⟩ :: fs)
      = (match readMessageLoop maxMsg message fs with
         | .ok m w r => .ok m (⟨true, opCodePong, p⟩ :: w) r
         | .err e w => .err e (⟨true, opCodePong, p⟩ :: w)) ∧
    readMessageLoop maxMsg message (⟨fin, opCodePong, p⟩ :: fs)
      = readMessageLoop maxMsg message fs := by
  constructor
  · simp [readMessageLoop, opCodePing, opCodeClose, opCodePong]
  · simp [readMessageLoop, opCodePing, opCodeClose, opCodePong]

set_option maxRecDepth 100000 in
/-- C4: for every client key `k` the accept key is
`base64(sha1(k ++ GUID))` — the embedding of `generateServerKey` computes
exactly this formula — and on the RFC 6455 sample key
`"dGhlIHNhbXBsZSBub25jZQ=="` the accept key is
`"s3pPLMBiTxaQ9kYGzzhZRbK+xOo="`. -/
theorem generateServerKey_formula_and_vector :
    (∀ k : String, generateServerKey k
        = String.mk (base64Encode (sha1 (strBytes (k ++ wsGUID))))) ∧
    generateServerKey "dGhlIHNhbXBsZSBub25jZQ==" = "s3pPLMBiTxaQ9kYGzzhZRbK+xOo=" :=
  ⟨fun _ => rfl, by decide⟩

theorem writeCloseMessage_witness :
    WriteCloseMessage 1000 [] = writeFrame true opCodeClose (1000 / 256 :: 1000 % 256 :: []) ∧
    (closeMessagePayload 1000 []).length = 2 + List.length ([] : List Nat) ∧
    readFrame (2 + List.length ([] : List Nat)) (WriteCloseMessage 1000 [])
      = .ok true opCodeClose (1000 / 256 :: 1000 % 256 :: []) [] :=
  writeCloseMessage_single_close_frame 1000 (by norm_num) [] (by norm_num)

/-- C3 counterexample: a request whose `Connection` header is `"UPGRADE"`
(every other header valid) is rejected by the code — the comparison accepts
only the two exact spellings `"Upgrade"`/`"upgrade"`, it is not
case-insensitive — whereas the claim's reading of the checks
(`upgradeValidateClaim`) accepts it. -/
theorem upgrade_case_insensitive_counterexample :
    upgradeValidate "*" ⟨"websocket", "UPGRADE", "13", "", "k"⟩
      = some "invalid connection header (expected 'Upgrade')" ∧
    upgradeValidateClaim "*" ⟨"websocket", "UPGRADE", "13", "", "k"⟩ = none ∧
    upgrade "*" ⟨"websocket", "UPGRADE", "13", "", "k"⟩
      = .rejected "invalid connection header (expected 'Upgrade')" := by
  refine ⟨by decide, by decide, by decide⟩

/-- C3 (amended): `upgrade` validates in order — `Upgrade: websocket`;
`Connection` exactly `"Upgrade"` or `"upgrade"` (not case-insensitively);
`Sec-WebSocket-Version: 13`; the `Origin` check applies only when the
configured origin is not `"*"` and the request's `Origin` header is
non-empty; `Sec-WebSocket-Key` non-empty.  The first failing check aborts
with its specific message and the handshake is rejected with no hijack and
no 101 response; when every check passes the connection is upgraded with
the computed accept key. -/
theorem upgrade_validation_order (cfgOrigin : String) (r : HandshakeRequest) :
    (upgradeValidate cfgOrigin r = none ↔
      r.upgrade = "websocket" ∧ (r.connection = "Upgrade" ∨ r.connection = "upgrade") ∧
      r.secWebSocketVersion = "13" ∧
      (cfgOrigin = "*" ∨ r.origin = "" ∨ r.origin = cfgOrigin) ∧
      r.secWebSocketKey ≠ "") ∧
    (r.upgrade ≠ "websocket" →
      upgradeValidate cfgOrigin r = some "invalid upgrade header (expected 'websocket')") ∧
    (r.upgrade = "websocket" → r.connection ≠ "Upgrade" → r.connection ≠ "upgrade" →
      upgradeValidate cfgOrigin r = some "invalid connection header (expected 'Upgrade')") ∧
    (r.upgrade = "websocket" → (r.connection = "Upgrade" ∨ r.connection = "upgrade") →
      r.secWebSocketVersion ≠ "13" →
      upgradeValidate cfgOrigin r
        = some "unsupported websocket version (only RFC 6455/13 is supported)") ∧
    (r.upgrade = "websocket" → (r.connection = "Upgrade" ∨ r.connection = "upgrade") →
      r.secWebSocketVersion = "13" → cfgOrigin ≠ "*" → r.origin ≠ "" → r.origin ≠ cfgOrigin →
      upgradeValidate cfgOrigin r = some ("origin '" ++ r.origin ++ "' not allowed")) ∧
    (r.upgrade = "websocket" → (r.connection = "Upgrade" ∨ r.connection = "upgrade") →
      r.secWebSocketVersion = "13" →
      (cfgOrigin = "*" ∨ r.origin = "" ∨ r.origin = cfgOrigin) → r.secWebSocketKey = "" →
      upgradeValidate cfgOrigin r = some "missing 'Sec-WebSocket-Key' header") ∧
    (∀ e, upgradeValidate cfgOrigin r = some e → upgrade cfgOrigin r = .rejected e) ∧
    (upgradeValidate cfgOrigin r = none →
      upgrade cfgOrigin r = .upgraded (generateServerKey r.secWebSocketKey)) := by
  refine ⟨?_, fun h1 => ?_, fun h1 h2 h3 => ?_, fun h1 h2 h3 => ?_,
    fun h1 h2 h3 h4 h5 h6 => ?_, fun h1 h2 h3 h4 h5 => ?_,
    fun e he => ?_, fun hn => ?_⟩
  · unfold upgradeValidate
    split_ifs with a b c d e <;> (simp_all; try tauto)
  · simp [upgradeValidate, h1]
  · simp [upgradeValidate, h1, h2, h3]
  · rcases h2 with h2 | h2 <;> simp [upgradeValidate, h1, h2, h3]
  · rcases h2 with h2 | h2 <;> simp [upgradeValidate, h1, h2, h3, h4, h5, h6]
  · rcases h2 with h2 | h2 <;> rcases h4 with h4 | h4 | h4 <;>
      simp [upgradeValidate, h1, h2, h3, h4, h5]
  · simp only [upgrade, he]
  · simp only [upgrade, hn]

theorem upgrade_validation_witness :
    upgradeValidate "*" ⟨"polling", "Upgrade", "13", "", "k"⟩
      = some "invalid upgrade header (expected 'websocket')" :=
  (upgrade_validation_order "*" ⟨"polling", "Upgrade", "13", "", "k"⟩).2.1 (by decide)

/-- C7 counterexample: a valid JSON object with no `action` field is not a
parse error — `ParseMessage` succeeds, returning Go's zero value `""` for
the action — and the message loop answers with the unknown-action (404)
response, not the structured bad-message (400) response the claim
predicts. -/
theorem parse_missing_action_counterexample :
    ParseMessage (some ⟨none, none, none⟩) = some ("", "", []) ∧
    messageLoopStep ["echo"] (some (some ⟨none, none, none⟩))
      = .unknownActionResponse := by
  refine ⟨by decide, by decide⟩

/-- C7 (amended): a malformed-JSON message is reported by `ParseMessage` as
a parse error, and the loop writes the structured bad-message response and
continues; a valid JSON message lacking `action` parses successfully with
the empty action, which — when no handler is registered under `""` — is
dispatched as an unknown action (the 404-style `ctx.JSON` response) and the
loop continues; no loop iteration other than a `ReadMessage` failure breaks
the loop (the connection stays open). -/
theorem messageLoop_parse_policy (handlers : List String) :
    (ParseMessage none = none ∧
      messageLoopStep handlers (some none) = .parseErrorResponse badMessageResponse) ∧
    (∀ req : WsReqJson, req.action = none → ¬ "" ∈ handlers →
      ParseMessage (some req) = some ("", req.requestId.getD "", req.data.getD []) ∧
      messageLoopStep handlers (some (some req)) = .unknownActionResponse) ∧
    (∀ raw reason, messageLoopStep handlers (some raw) ≠ .brk reason) := by
  refine ⟨⟨rfl, rfl⟩, fun req ha hm => ⟨?_, ?_⟩, fun raw reason => ?_⟩
  · simp [ParseMessage, ha]
  · simp [messageLoopStep, ParseMessage, ha, hm]
  · cases raw with
    | none => simp [messageLoopStep, ParseMessage]
    | some req =>
      simp only [messageLoopStep, ParseMessage]
      split <;> simp

theorem messageLoop_parse_policy_witness :
    ParseMessage (some ⟨none, some "r1", none⟩)
      = some ("", (some "r1").getD "", (none : Option (List Nat)).getD []) ∧
    messageLoopStep ["login"] (some (some ⟨none, some "r1", none⟩))
      = .unknownActionResponse :=
  (messageLoop_parse_policy ["login"]).2.1 ⟨none, some "r1", none⟩ rfl (by decide)

/-! ### Registry lemmas -/

theorem lookup_filter_ne (m : List (String × ConnInfoM)) (X Y : String) (h : X ≠ Y) :
    (m.filter fun p => p.1 != Y).lookup X = m.lookup X := by
  induction m with
  | nil => rfl
  | cons p m ih =>
    by_cases hp : p.1 = Y
    · have hx : (X == Y) = false := by simp [h]
      simp [List.filter_cons, hp, List.lookup, hx, ih]
    · have h1 : (p.1 != Y) = true := by simp [hp]
      by_cases hx : X = p.1
      · simp [List.filter_cons, h1, List.lookup, hx]
      · have hxx : (X == p.1) = false := by simp [hx]
        simp [List.filter_cons, h1, List.lookup, hxx, ih]

theorem lookup_filter_self (m : List (String × ConnInfoM)) (Y : String) :
    (m.filter fun p => p.1 != Y).lookup Y = none := by
  induction m with
  | nil => rfl
  | cons p m ih =>
    by_cases hp : p.1 = Y
    · simp [List.filter_cons, hp, ih]
    · have h1 : (p.1 != Y) = true := by simp [hp]
      have h2 : (Y == p.1) = false := by simp [Ne.symm hp]
      simp [List.filter_cons, h1, List.lookup, h2, ih]

theorem lookup_filter_none (m : List (String × ConnInfoM)) (pfn : String × ConnInfoM → Bool)
    (X : String) (h : m.lookup X = none) : (m.filter pfn).lookup X = none := by
  induction m with
  | nil => rfl
  | cons p m ih =>
    by_cases hx : (X == p.1) = true
    · simp [List.lookup, hx] at h
    · have hx' : (X == p.1) = false := by simpa using hx
      have hm : m.lookup X = none := by simpa [List.lookup, hx'] using h
      by_cases hf : pfn p = true
      · simp [List.filter_cons, hf, List.lookup, hx', ih hm]
      · simp [List.filter_cons, hf, ih hm]

theorem getConn_applyOp_other (s : ConnManagerState) (op : RegOp) (X : String)
    (h : regOpID op ≠ X) :
    GetConnByConnID (applyOp s op) X = GetConnByConnID s X := by
  cases op with
  | add id c ip =>
    have hid : id ≠ X := by simpa [regOpID] using h
    have hx : (X == id) = false := by simp [Ne.symm hid]
    simp [applyOp, AddConn, GetConnByConnID, List.lookup, hx,
      lookup_filter_ne s.connMap X id (Ne.symm hid)]
  | remove id r =>
    have hid : id ≠ X := by simpa [regOpID] using h
    simp only [applyOp, RemoveConn]
    cases hl : s.connMap.lookup id with
    | none => rfl
    | some info =>
      simp [GetConnByConnID, lookup_filter_ne s.connMap X id (Ne.symm hid)]

theorem getConn_applyOps_other (ops : List RegOp) (s : ConnManagerState) (X : String)
    (h : ∀ op ∈ ops, regOpID op ≠ X) :
    GetConnByConnID (applyOps s ops) X = GetConnByConnID s X := by
  induction ops generalizing s with
  | nil => rfl
  | cons op ops ih =>
    simp only [applyOps, List.foldl_cons]
    rw [show List.foldl applyOp (applyOp s op) ops = applyOps (applyOp s op) ops from rfl,
      ih (applyOp s op) (fun o ho => h o (List.mem_cons_of_mem _ ho)),
      getConn_applyOp_other s op X (h op (List.mem_cons_self _ _))]

theorem getConn_none_applyOp (s : ConnManagerState) (op : RegOp) (X : String)
    (h : ∀ c ip, op ≠ .add X c ip) (h0 : GetConnByConnID s X = none) :
    GetConnByConnID (applyOp s op) X = none := by
  cases op with
  | add id c ip =>
    have hid : id ≠ X := fun he => h c ip (by rw [he])
    rw [getConn_applyOp_other s _ X (by simpa [regOpID] using hid)]
    exact h0
  | remove id r =>
    simp only [applyOp, RemoveConn]
    cases hl : s.connMap.lookup id with
    | none => exact h0
    | some info =>
      have hn : s.connMap.lookup X = none := by
        cases hc : s.connMap.lookup X with
        | none => rfl
        | some v => rw [GetConnByConnID, hc] at h0; simp at h0
      simp [GetConnByConnID, lookup_filter_none _ _ X hn]

theorem getConn_none_applyOps (ops : List RegOp) (s : ConnManagerState) (X : String)
    (h : ∀ op ∈ ops, ∀ c ip, op ≠ .add X c ip) (h0 : GetConnByConnID s X = none) :
    GetConnByConnID (applyOps s ops) X = none := by
  induction ops generalizing s with
  | nil => exact h0
  | cons op ops ih =>
    simp only [applyOps, List.foldl_cons]
    exact ih (applyOp s op) (fun o ho => h o (List.mem_cons_of_mem _ ho))
      (getConn_none_applyOp s op X (h op (List.mem_cons_self _ _)) h0)

/-- C8: after `AddConn` stores connection `conn` under the fresh ID `X`,
`GetConnByConnID X` returns it, and keeps returning it across any
interleaved registry operations that do not use ID `X`; once
`RemoveConn X` has run, `GetConnByConnID X` returns `none`, and keeps doing
so across any operations that do not re-add `X` (UUIDs are never reused);
and a `RemoveConn X` on a state where `X` is absent — in particular a
second `RemoveConn X` — is a complete no-op: the state, including the
published-event trace and the closed-connection trace, is unchanged. -/
theorem registry_add_get_remove (s : ConnManagerState) (X : String) (conn : Nat)
    (ip : String) :
    (GetConnByConnID (AddConn s X conn ip).1 X = some conn) ∧
    (∀ ops, (∀ op ∈ ops, regOpID op ≠ X) →
      GetConnByConnID (applyOps (AddConn s X conn ip).1 ops) X = some conn) ∧
    (∀ t reason, GetConnByConnID (RemoveConn t X reason) X = none) ∧
    (∀ t, GetConnByConnID t X = none →
      ∀ ops, (∀ op ∈ ops, ∀ c i, op ≠ RegOp.add X c i) →
        GetConnByConnID (applyOps t ops) X = none) ∧
    (∀ t reason, GetConnByConnID t X = none → RemoveConn t X reason = t) := by
  refine ⟨?_, ?_, ?_, ?_, ?_⟩
  · simp [AddConn, GetConnByConnID, List.lookup]
  · intro ops h
    rw [getConn_applyOps_other ops _ X h]
    simp [AddConn, GetConnByConnID, List.lookup]
  · intro t reason
    simp only [RemoveConn]
    cases hl : t.connMap.lookup X with
    | none => simp [GetConnByConnID, hl]
    | some info => simp [GetConnByConnID, lookup_filter_self]
  · intro t h0 ops h
    exact getConn_none_applyOps ops t X h h0
  · intro t reason h0
    have hn : t.connMap.lookup X = none := by
      cases hc : t.connMap.lookup X with
      | none => rfl
      | some v => rw [GetConnByConnID, hc] at h0; simp at h0
    simp [RemoveConn, hn]

theorem registry_witness :
    GetConnByConnID
      (applyOps (AddConn ⟨[], [], []⟩ "a" 7 "ip").1 [RegOp.remove "b" "gone"]) "a"
      = some 7 :=
  (registry_add_get_remove ⟨[], [], []⟩ "a" 7 "ip").2.1
    [RegOp.remove "b" "gone"] (by decide)

/-- C9 counterexample: on a connection where `WriteCloseMessage(1009, …)`
already sent a close frame, `Close()` still appends a second close frame
(status 1000, "normal closure") to the wire — the code keeps no
"close frame already sent" state, contradicting the claim's "only if no
close frame has previously been sent". -/
theorem close_resends_close_frame :
    (Close (connWriteCloseMessage ⟨true, []⟩ 1009
        (strBytes "message size exceeds limit")).1).1.out
      = WriteCloseMessage 1009 (strBytes "message size exceeds limit")
          ++ WriteCloseMessage 1000 (strBytes "normal closure") := by decide

/-- C9 (amended): `Close()` always attempts to send the 1000/"normal
closure" close frame — when the transport is open it is written regardless
of any close frame sent before; when the transport is already closed the
write fails and its error is discarded, so nothing is written — and then
closes the underlying transport.  Hence a second `Close()` writes nothing
further and merely returns the transport's double-close error (no panic;
the discarded write error masks nothing). -/
theorem close_always_sends_then_closes (c : ConnState) :
    ((Close c).1.transportOpen = false) ∧
    (c.transportOpen = true →
      (Close c).1.out = c.out ++ WriteCloseMessage 1000 (strBytes "normal closure") ∧
      (Close c).2 = false) ∧
    (c.transportOpen = false → (Close c).1 = ⟨false, c.out⟩ ∧ (Close c).2 = true) ∧
    ((Close (Close c).1).1.out = (Close c).1.out ∧ (Close (Close c).1).2 = true) := by
  obtain ⟨o, out⟩ := c
  cases o <;> simp [Close, connWriteCloseMessage, connWrite]

theorem close_witness :
    (Close (⟨true, []⟩ : ConnState)).1.out
      = ([] : List Nat) ++ WriteCloseMessage 1000 (strBytes "normal closure") ∧
    (Close (⟨true, []⟩ : ConnState)).2 = false :=
  (close_always_sends_then_closes ⟨true, []⟩).2.1 rfl

end GoDai.WS
